import Mathlib

/-!
# A verification model of the `statuscake` Python client

Shallow embedding of `statuscake/api.py` and `statuscake/exceptions.py`:
the field validator (`StatusCake._check_fields`), the request dispatcher
(`StatusCake._request`), the resource operations and the location cache,
together with proofs about them.

Python dicts are modelled as association lists (unique keys in practice),
JSON values and Python runtime values as inductive types, exceptions as
explicit error results, and wall-clock time as an explicit parameter.
-/

set_option autoImplicit false

namespace StatusCakeModel

/-- A parsed JSON value, as produced by `response.json()`. -/
inductive JVal where
  | null
  | bool (b : Bool)
  | int (n : Int)
  | str (s : String)
  | arr (xs : List JVal)
  | obj (fs : List (String × JVal))

/-- `d.get(k)` on a parsed JSON object: first entry with key `k`. -/
def jGet (fs : List (String × JVal)) (k : String) : Option JVal :=
  match fs with
  | [] => none
  | (k', v) :: rest => if k' == k then some v else jGet rest k

/-- `d.get(k, default)` on a parsed JSON object. -/
def jGetD (fs : List (String × JVal)) (k : String) (d : JVal) : JVal :=
  (jGet fs k).getD d

/-- Python truthiness of a JSON value (`if not error_message: ...`). -/
def truthy : JVal → Bool
  | .null => false
  | .bool b => b
  | .int n => n != 0
  | .str s => s != ""
  | .arr xs => !xs.isEmpty
  | .obj fs => !fs.isEmpty

/-- Python `==` between a JSON value and an int literal (`errno == 0`);
`bool` is an `int` subclass, so `True == 1` and `False == 0`. -/
def jvalEqInt : JVal → Int → Bool
  | .int m, n => m == n
  | .bool b, n => (if b then (1 : Int) else 0) == n
  | _, _ => false

/-- Python `value is False`: identity with the `False` singleton. -/
def isFalseLit : JVal → Bool
  | .bool b => !b
  | _ => false

/-- `json_resp.get('Error', None) is not None`. -/
def errorNotNone (fs : List (String × JVal)) : Bool :=
  match jGet fs "Error" with
  | some .null => false
  | some _ => true
  | none => false

/-- The exceptions raised by the dispatcher's error classification,
from `statuscake/exceptions.py`; the payload is the exception argument. -/
inductive SCRaise where
  | StatusCakeAuthError (msg : JVal)
  | StatusCakeNotLinkedError (msg : JVal)
  | StatusCakeResponseError (msg : JVal)

/-- `error_message = json_resp.get('Error'); if not error_message:
error_message = json_resp.get('Message')` (api.py lines 120-122). -/
def error_message_of (fs : List (String × JVal)) : JVal :=
  let em := jGetD fs "Error" .null
  if truthy em then em else jGetD fs "Message" .null

/-- Python `error_message or default`. -/
def pyOr (v : JVal) (dflt : String) : JVal :=
  if truthy v then v else .str dflt

/-- The `check_errors` block of `StatusCake._request` (api.py lines 116-127):
`some e` means exception `e` is raised, `none` means the response is returned. -/
def request_check_errors (json_resp : JVal) : Option SCRaise :=
  match json_resp with
  | .obj fs =>
    if isFalseLit (jGetD fs "Success" (.bool true)) || errorNotNone fs then
      let errno := jGetD fs "ErrNo" (.int (-1))
      let em := error_message_of fs
      if jvalEqInt errno 0 then
        some (.StatusCakeAuthError (pyOr em "Authentication Failed"))
      else if jvalEqInt errno 1 then
        some (.StatusCakeNotLinkedError (pyOr em "Authentication Failed"))
      else
        some (.StatusCakeResponseError (pyOr em "API Call Failed"))
    else none
  | _ => none

/-- The fields of a `StatusCake` client instance set by `__init__`. -/
structure StatusCake where
  _api_key : String
  _api_user : String
  timeout : Int

set_option linter.unusedVariables false in
/-- `StatusCake.__init__(self, api_key, api_user, timeout=10)` (api.py
lines 89-92).  The constructor receives `timeout` but assigns the literal
`10` to `self.timeout` (`self.timeout = 10`), so the argument is dropped. -/
def StatusCake.init (api_key api_user : String) (timeout : Int) : StatusCake :=
  { _api_key := api_key, _api_user := api_user, timeout := 10 }

/-- What `_request` computes before performing the HTTP call, plus the
error-classification outcome on the given response body. -/
structure DispatchedRequest where
  headers : List (String × String)
  timeout : Int
  outcome : Option SCRaise

/-- `StatusCake._request` (api.py lines 97-128), with the HTTP transport
abstracted as the `response_body` the service answers with: headers from
`auth_headers`, the effective timeout from `kwargs.setdefault('timeout',
self.timeout)`, and the `check_errors` classification of the body. -/
def StatusCake.request (c : StatusCake) (kwargs_timeout : Option Int)
    (auth_headers check_errors : Bool) (response_body : JVal) : DispatchedRequest :=
  { headers := if auth_headers then [("API", c._api_key), ("Username", c._api_user)] else []
    timeout := kwargs_timeout.getD c.timeout
    outcome := if check_errors then request_check_errors response_body else none }

/-! URL table and session mount (api.py lines 24-36 and 94-95). -/

def URL_LOCATIONS : String := "https://app.statuscake.com/API/Locations/json"

def URL_ALERT : String := "https://app.statuscake.com/API/Alerts/?TestID=%s"

def URL_ALL_GROUPS : String := "https://app.statuscake.com/API/ContactGroups/"

def URL_UPDATE_GROUP : String := "https://app.statuscake.com/API/ContactGroups/Update/"

def URL_DELETE_GROUP : String := URL_UPDATE_GROUP ++ "?ContactID=%s"

def URL_ALL_TESTS : String := "https://app.statuscake.com/API/Tests/"

def URL_DETAILS_TEST : String := "https://app.statuscake.com/API/Tests/Details/?TestID=%s"

def URL_UPDATE_TEST : String := "https://app.statuscake.com/API/Tests/Update"

def URL_PERIODS : String := "https://app.statuscake.com/API/Tests/Periods/?TestID=%s"

def URL_CHECKS : String := "https://app.statuscake.com/API/Tests/Checks/?TestID=%s"

def URL_SSL : String := "https://app.statuscake.com/API/SSL/"

def URL_UPDATE_SSL : String := "https://app.statuscake.com/API/SSL/Update"

def URL_PAGE_SPEED : String := "https://app.statuscake.com/API/Pagespeed"

/-- The URL the retrying `HTTPAdapter(max_retries=5)` is mounted on:
`self.session.mount('https://www.statuscake.com', ...)` (api.py line 95).
`requests` routes a request through a mounted adapter exactly when the
request URL starts with the mount string. -/
def SESSION_MOUNT_URL : String := "https://www.statuscake.com"

/-- The dispatch URLs of all client operations (the URL table). -/
def dispatchUrls : List String :=
  [URL_LOCATIONS, URL_ALERT, URL_ALL_GROUPS, URL_UPDATE_GROUP, URL_DELETE_GROUP,
   URL_ALL_TESTS, URL_DETAILS_TEST, URL_UPDATE_TEST, URL_PERIODS, URL_CHECKS,
   URL_SSL, URL_UPDATE_SSL, URL_PAGE_SPEED]

/-! ## The location cache (api.py lines 144-151)

`get_node_locations` keeps `self._location_cache` and
`self._location_cache_timeout`, both set together; `none` models the
attributes not existing yet, `some (v, t)` models cache value `v` with
expiry timestamp `t`.  `time.time()` is the explicit `now` parameter and
the HTTP fetch is abstracted as the value `fetched` the service would
return on this call. -/

/-- Result of one `get_node_locations` call: the returned value, the cache
state after the call, and whether a network request was dispatched. -/
structure LocFetch where
  result : JVal
  state : Option (JVal × Int)
  network_call : Bool

/-- `StatusCake.get_node_locations` (api.py lines 144-151): return the
cached value while `self._location_cache_timeout > time.time()`, otherwise
fetch and store the result with expiry `time.time() + 900`. -/
def get_node_locations (st : Option (JVal × Int)) (now : Int) (fetched : JVal) : LocFetch :=
  match st with
  | some (cache, cache_timeout) =>
    if now < cache_timeout then ⟨cache, st, false⟩
    else ⟨fetched, some (fetched, now + 900), true⟩
  | none => ⟨fetched, some (fetched, now + 900), true⟩

/-! ## The field validator (api.py lines 11-20, 38-87, 130-142)

Request payloads hold Python runtime values; `PyVal` covers the kinds of
values that flow through this client (strings, ints, bools, `None`, and
sequences of values). -/

/-- A Python runtime value in a request payload. -/
inductive PyVal where
  | none
  | bool (b : Bool)
  | int (n : Int)
  | str (s : String)
  | list (xs : List PyVal)

/-- Extract the strings of a list if every element is a string
(`','.join` raises `TypeError` on a non-string element). -/
def strList : List PyVal → Option (List String)
  | [] => some []
  | .str s :: rest => (strList rest).map (s :: ·)
  | _ :: _ => Option.none

/-- `to_comma_list` (api.py lines 11-14): join a sequence of strings with
commas, pass every other value through; `.error ()` is the `TypeError`
that `','.join` raises when an element is not a string. -/
def to_comma_list (v : PyVal) : Except Unit PyVal :=
  match v with
  | .list xs =>
    match strList xs with
    | some ss => .ok (.str (String.intercalate "," ss))
    | Option.none => .error ()
  | v => .ok v

/-- `to_int` (api.py lines 17-20): coerce a bool to `0`/`1`, pass every
other value through; never raises. -/
def to_int : PyVal → PyVal
  | .bool b => .int (if b then 1 else 0)
  | v => v

/-- The conversion functions referenced by the schemas. -/
inductive Conv where
  | commaList
  | intConv
deriving DecidableEq

/-- Run a schema conversion; `.error ()` models a raised `TypeError`. -/
def applyConv : Conv → PyVal → Except Unit PyVal
  | .commaList, v => to_comma_list v
  | .intConv, v => .ok (to_int v)

/-- The expected-type tags used in the schemas: `int`,
`six.string_types` and `bool`. -/
inductive FieldType where
  | intType
  | strType
  | boolType
deriving DecidableEq

/-- Python `isinstance(value, field_type)`; note `bool` is a subclass of
`int`, so a bool is an instance of `int`, but an int is not a `bool`. -/
def isinstanceOf : PyVal → FieldType → Bool
  | .int _, .intType => true
  | .bool _, .intType => true
  | .str _, .strType => true
  | .bool _, .boolType => true
  | _, _ => false

/-- An allowed-value set in a schema: a tuple of ints, a tuple of strings,
or a Python `range(lo, hi)`. -/
inductive AllowedVals where
  | tupleI (xs : List Int)
  | tupleS (xs : List String)
  | rangeV (lo hi : Int)
deriving DecidableEq

/-- View a value as a Python int for `==`/`in` (bools count as `0`/`1`). -/
def pyIntVal : PyVal → Option Int
  | .int n => some n
  | .bool b => some (if b then 1 else 0)
  | _ => Option.none

/-- Python `value in field_values`. -/
def pyMem (v : PyVal) : AllowedVals → Bool
  | .tupleI xs =>
    match pyIntVal v with
    | some n => xs.contains n
    | Option.none => false
  | .tupleS xs =>
    match v with
    | .str s => xs.contains s
    | _ => false
  | .rangeV lo hi =>
    match pyIntVal v with
    | some n => decide (lo ≤ n) && decide (n < hi)
    | Option.none => false

/-- Python `"%s" % field_type` for the schema type tags
(under Python 3, where `six.string_types` is the 1-tuple `(str,)`). -/
def reprFieldType : FieldType → String
  | .intType => "<class 'int'>"
  | .strType => "(<class 'str'>,)"
  | .boolType => "<class 'bool'>"

/-- Python `"%s" % field_values` for an allowed-value set. -/
def reprAllowed : AllowedVals → String
  | .tupleI xs => "(" ++ String.intercalate ", " (xs.map toString) ++ ")"
  | .tupleS xs => "(" ++ String.intercalate ", " (xs.map (fun s => "'" ++ s ++ "'")) ++ ")"
  | .rangeV lo hi => "range(" ++ toString lo ++ ", " ++ toString hi ++ ")"

/-- A `StatusCakeFieldError` raised by `_check_fields`, by raise site:
`convError` from line 138 (a conversion raised `TypeError`), `typeError`
from line 140, `valueError` from line 142.  Note `valueError` carries the
field's expected *type*, exactly what line 142 interpolates into the
`value %s` slot of its message. -/
inductive FieldErr where
  | convError (field : String)
  | typeError (field : String) (ftype : FieldType)
  | valueError (field : String) (ftype : FieldType) (allowed : AllowedVals)

/-- The exception messages of `_check_fields` (api.py lines 138, 140, 142);
for `convError` the interpreter-supplied `TypeError` text is abstracted. -/
def fieldErrMessage : FieldErr → String
  | .convError f => "Field " ++ f ++ ": " ++ "<TypeError message>"
  | .typeError f t => "Field " ++ f ++ " must be of type " ++ reprFieldType t
  | .valueError f t a =>
    "Field " ++ f ++ " value " ++ reprFieldType t ++ " does not match one of: " ++ reprAllowed a

/-- One schema entry: `(field_type, field_values, field_conv)`. -/
structure FieldSpec where
  ftype : FieldType
  fvalues : Option AllowedVals
  fconv : Option Conv
deriving DecidableEq

/-- A request payload: a Python dict as an insertion-ordered association
list with unique keys. -/
abbrev Payload := List (String × PyVal)

/-- `field_name in data` / `data[field_name]` read. -/
def pget (d : Payload) (k : String) : Option PyVal :=
  match d with
  | [] => Option.none
  | (k', v) :: rest => if k' == k then some v else pget rest k

/-- `'k' in data`. -/
def hasKey (d : Payload) (k : String) : Bool :=
  (pget d k).isSome

/-- `data[k] = v` on a dict: replace the value of the existing key in
place, append a new key at the end. -/
def pset (d : Payload) (k : String) (v : PyVal) : Payload :=
  match d with
  | [] => [(k, v)]
  | (k', v') :: rest => if k' == k then (k, v) :: rest else (k', v') :: pset rest k v

/-- The type and allowed-value checks of one `_check_fields` iteration
(api.py lines 139-142), applied to the payload value `v2` re-read after
the conversion assignment. -/
def check_field_post (data : Payload) (field_name : String) (spec : FieldSpec) (v2 : PyVal) :
    Payload × Option FieldErr :=
  if !isinstanceOf v2 spec.ftype then
    (data, some (.typeError field_name spec.ftype))
  else
    match spec.fvalues with
    | some allowed =>
      if !pyMem v2 allowed then (data, some (.valueError field_name spec.ftype allowed))
      else (data, Option.none)
    | Option.none => (data, Option.none)

/-- One iteration of the `_check_fields` loop (api.py lines 131-142) on a
single schema entry: skip an absent field; otherwise run the conversion,
assigning its result into the payload (`data[field_name] = ...`) or
raising on `TypeError`, then run the type and allowed-value checks. -/
def check_field_step (data : Payload) (field_name : String) (spec : FieldSpec) :
    Payload × Option FieldErr :=
  match pget data field_name with
  | Option.none => (data, Option.none)
  | some v =>
    match spec.fconv with
    | Option.none => check_field_post data field_name spec v
    | some c =>
      match applyConv c v with
      | .ok v2 => check_field_post (pset data field_name v2) field_name spec v2
      | .error _ => (data, some (.convError field_name))

/-- `StatusCake._check_fields(data, check_map)` (api.py lines 130-142),
with the dict mutation made explicit: the entries of `check_map` are
processed in order, and the result is the payload as it stands when the
loop finishes or the first `StatusCakeFieldError` is raised, together
with that error if any. -/
def check_fields (data : Payload) (check_map : List (String × FieldSpec)) :
    Payload × Option FieldErr :=
  match check_map with
  | [] => (data, Option.none)
  | (field_name, spec) :: rest =>
    match check_field_step data field_name spec with
    | (data2, some e) => (data2, some e)
    | (data2, Option.none) => check_fields data2 rest

/-! ## The schemas (api.py lines 38-87) -/

/-- `StatusCake.CONTACT_GROUP_FIELDS`. -/
def CONTACT_GROUP_FIELDS : List (String × FieldSpec) :=
  [("GroupName", ⟨.strType, Option.none, Option.none⟩),
   ("DesktopAlert", ⟨.intType, some (.tupleI [0, 1]), Option.none⟩),
   ("Email", ⟨.strType, Option.none, some .commaList⟩),
   ("Boxcat", ⟨.strType, Option.none, Option.none⟩),
   ("Pushover", ⟨.strType, Option.none, Option.none⟩),
   ("PingURL", ⟨.strType, Option.none, Option.none⟩),
   ("Mobile", ⟨.strType, Option.none, some .commaList⟩),
   ("ContactID", ⟨.intType, Option.none, Option.none⟩)]

/-- `StatusCake.SSL_FIELDS`; note the `'alert_expiray'` spelling. -/
def SSL_FIELDS : List (String × FieldSpec) :=
  [("domain", ⟨.strType, Option.none, Option.none⟩),
   ("checkrate", ⟨.intType, some (.tupleI [300, 600, 2800, 3600, 86400, 2073600]), Option.none⟩),
   ("contact_groups", ⟨.strType, Option.none, some .commaList⟩),
   ("alert_at", ⟨.strType, Option.none, Option.none⟩),
   ("alert_expiray", ⟨.boolType, Option.none, Option.none⟩),
   ("alert_reminder", ⟨.boolType, Option.none, Option.none⟩),
   ("alert_broken", ⟨.boolType, Option.none, Option.none⟩)]

/-- `StatusCake.TESTS_FIELDS`. -/
def TESTS_FIELDS : List (String × FieldSpec) :=
  [("TestID", ⟨.intType, Option.none, Option.none⟩),
   ("Paused", ⟨.intType, some (.tupleI [0, 1]), some .intConv⟩),
   ("WebsiteName", ⟨.strType, Option.none, Option.none⟩),
   ("WebsiteURL", ⟨.strType, Option.none, Option.none⟩),
   ("Port", ⟨.intType, Option.none, Option.none⟩),
   ("NodeLocations", ⟨.strType, Option.none, some .commaList⟩),
   ("Timeout", ⟨.intType, some (.rangeV 5 101), Option.none⟩),
   ("PingURL", ⟨.strType, Option.none, Option.none⟩),
   ("Confirmation", ⟨.intType, some (.rangeV 0 11), Option.none⟩),
   ("CheckRate", ⟨.intType, some (.rangeV 0 24001), Option.none⟩),
   ("BasicUser", ⟨.strType, Option.none, Option.none⟩),
   ("BasicPass", ⟨.strType, Option.none, Option.none⟩),
   ("Public", ⟨.intType, some (.tupleI [0, 1]), Option.none⟩),
   ("LogoImage", ⟨.strType, Option.none, Option.none⟩),
   ("Branding", ⟨.intType, some (.tupleI [0, 1]), Option.none⟩),
   ("WebsiteHost", ⟨.strType, Option.none, Option.none⟩),
   ("Virus", ⟨.intType, some (.tupleI [0, 1]), Option.none⟩),
   ("FindString", ⟨.strType, Option.none, Option.none⟩),
   ("DoNotFind", ⟨.intType, some (.tupleI [0, 1]), Option.none⟩),
   ("TestType", ⟨.strType, some (.tupleS ["HTTP", "TCP", "PING", "PUSH"]), Option.none⟩),
   ("ContactGroup", ⟨.strType, Option.none, some .commaList⟩),
   ("RealBrowser", ⟨.intType, some (.tupleI [0, 1]), Option.none⟩),
   ("TriggerRate", ⟨.intType, some (.rangeV 0 61), Option.none⟩),
   ("TestTags", ⟨.strType, Option.none, some .commaList⟩),
   ("FinalEndpoint", ⟨.strType, Option.none, Option.none⟩),
   ("PostRaw", ⟨.strType, Option.none, Option.none⟩),
   ("EnableSSLAlert", ⟨.intType, some (.tupleI [0, 1]), Option.none⟩)]

/-! ## Resource operations (api.py lines 156-252)

A write operation either raises before the HTTP call or reaches the
dispatcher with a validated payload; the response handling is outside the
operation's control, so an operation's outcome is `raised e` or
`dispatched url payload`. -/

/-- Errors a write operation can raise before dispatching. -/
inductive OpErr where
  | statusCakeError (msg : String)
  | fieldMissing (msg : String)
  | fieldErr (e : FieldErr)

/-- Outcome of a write operation up to the HTTP call. -/
inductive OpResult where
  | raised (e : OpErr)
  | dispatched (url : String) (payload : Payload)

/-- Network calls a write operation performs: one when it reaches the
dispatcher, none when it raises first. -/
def networkCalls : OpResult → Nat
  | .raised _ => 0
  | .dispatched _ _ => 1

/-- `StatusCake.insert_contact_group` (api.py lines 156-162) on a dict
payload. -/
def insert_contact_group (data : Payload) : OpResult :=
  if !hasKey data "GroupName" then .raised (.fieldMissing "GroupName missing")
  else
    match check_fields data CONTACT_GROUP_FIELDS with
    | (_, some e) => .raised (.fieldErr e)
    | (data2, Option.none) => .dispatched URL_UPDATE_GROUP data2

/-- `StatusCake.update_contact_group` (api.py lines 164-170) on a dict
payload. -/
def update_contact_group (data : Payload) : OpResult :=
  if !hasKey data "ContactID" then .raised (.fieldMissing "ContactID missing")
  else
    match check_fields data CONTACT_GROUP_FIELDS with
    | (_, some e) => .raised (.fieldErr e)
    | (data2, Option.none) => .dispatched URL_UPDATE_GROUP data2

/-- `StatusCake.insert_ssl` (api.py lines 197-215) on a dict payload:
required `domain` and `contact_groups`, default fills for `checkrate`,
`alert_at`, `alert_expiry`, `alert_reminder` and `alert_broken` (note the
default fill writes the key `'alert_expiry'` while the schema's entry is
spelled `'alert_expiray'`). -/
def insert_ssl (data : Payload) : OpResult :=
  if !hasKey data "domain" then .raised (.fieldMissing "domain missing")
  else
    let data := if !hasKey data "checkrate" then pset data "checkrate" (.int 3600) else data
    if !hasKey data "contact_groups" then .raised (.fieldMissing "contact_groups missing")
    else
      let data := if !hasKey data "alert_at" then pset data "alert_at" (.str "1,7,30") else data
      let data :=
        if !hasKey data "alert_expiry" then pset data "alert_expiry" (.bool true) else data
      let data :=
        if !hasKey data "alert_reminder" then pset data "alert_reminder" (.bool true) else data
      let data :=
        if !hasKey data "alert_broken" then pset data "alert_broken" (.bool true) else data
      match check_fields data SSL_FIELDS with
      | (_, some e) => .raised (.fieldErr e)
      | (data2, Option.none) => .dispatched URL_UPDATE_SSL data2

/-- `StatusCake.update_ssl` (api.py lines 217-223) on a dict payload. -/
def update_ssl (data : Payload) : OpResult :=
  if !hasKey data "id" then .raised (.fieldMissing "id missing")
  else
    match check_fields data SSL_FIELDS with
    | (_, some e) => .raised (.fieldErr e)
    | (data2, Option.none) => .dispatched URL_UPDATE_SSL data2

/-- `StatusCake.insert_test` (api.py lines 228-241) on a dict payload:
required `WebsiteName`, `WebsiteURL` and `TestType`, checked in that
order, then the free-plan default `CheckRate = 300` when absent. -/
def insert_test (data : Payload) : OpResult :=
  if !hasKey data "WebsiteName" then .raised (.fieldMissing "WebsiteName missing")
  else if !hasKey data "WebsiteURL" then .raised (.fieldMissing "WebsiteURL missing")
  else if !hasKey data "TestType" then .raised (.fieldMissing "TestType missing")
  else
    let data := if !hasKey data "CheckRate" then pset data "CheckRate" (.int 300) else data
    match check_fields data TESTS_FIELDS with
    | (_, some e) => .raised (.fieldErr e)
    | (data2, Option.none) => .dispatched URL_UPDATE_TEST data2

/-- `StatusCake.update_test` (api.py lines 243-252) on a dict payload. -/
def update_test (data : Payload) : OpResult :=
  if !hasKey data "TestID" then .raised (.fieldMissing "TestID missing")
  else if !hasKey data "CheckRate" then .raised (.fieldMissing "CheckRate missing")
  else
    match check_fields data TESTS_FIELDS with
    | (_, some e) => .raised (.fieldErr e)
    | (data2, Option.none) => .dispatched URL_UPDATE_TEST data2

/-! ## Dictionary lemmas -/

theorem pget_pset_self (d : Payload) (k : String) (v : PyVal) :
    pget (pset d k v) k = some v := by
  induction d with
  | nil => simp [pset, pget]
  | cons p rest ih =>
    obtain ⟨k', v'⟩ := p
    by_cases h : k' == k
    · simp [pset, pget, h]
    · simp [pset, pget, h, ih]

theorem pget_pset_ne (d : Payload) (k k' : String) (v : PyVal) (h : k ≠ k') :
    pget (pset d k v) k' = pget d k' := by
  induction d with
  | nil => simp [pset, pget, h]
  | cons p rest ih =>
    obtain ⟨k₀, v₀⟩ := p
    by_cases h₀ : k₀ == k
    · have hk : k₀ = k := by simpa using h₀
      subst hk
      simp [pset, pget, h, ih]
    · simp [pset, pget, h₀, ih]

theorem hasKey_pset_ne (d : Payload) (k k' : String) (v : PyVal) (h : k ≠ k') :
    hasKey (pset d k v) k' = hasKey d k' := by
  simp [hasKey, pget_pset_ne d k k' v h]

theorem pget_eq_none_of_hasKey_false (d : Payload) (k : String)
    (h : hasKey d k = false) : pget d k = Option.none := by
  simpa [hasKey, Option.isSome_iff_exists] using h

/-! ## Lemmas about one `_check_fields` iteration -/

theorem check_field_post_fst (d : Payload) (n : String) (s : FieldSpec) (v : PyVal) :
    (check_field_post d n s v).1 = d := by
  unfold check_field_post
  split <;> try rfl
  split <;> [skip; rfl]
  split <;> rfl

/-- A successful iteration on an absent field leaves the payload alone. -/
theorem check_field_step_absent (d : Payload) (n : String) (s : FieldSpec)
    (h : pget d n = Option.none) : check_field_step d n s = (d, Option.none) := by
  simp [check_field_step, h]

/-- Unfolding equation: present field, no conversion. -/
theorem check_field_step_eq_noconv (d : Payload) (n : String) (s : FieldSpec) (v : PyVal)
    (hp : pget d n = some v) (hc : s.fconv = Option.none) :
    check_field_step d n s = check_field_post d n s v := by
  simp [check_field_step, hp, hc]

/-- Unfolding equation: present field, conversion succeeds. -/
theorem check_field_step_eq_conv_ok (d : Payload) (n : String) (s : FieldSpec)
    (v : PyVal) (c : Conv) (v2 : PyVal)
    (hp : pget d n = some v) (hc : s.fconv = some c) (hac : applyConv c v = .ok v2) :
    check_field_step d n s = check_field_post (pset d n v2) n s v2 := by
  simp [check_field_step, hp, hc, hac]

/-- Unfolding equation: present field, conversion raises `TypeError`. -/
theorem check_field_step_eq_conv_err (d : Payload) (n : String) (s : FieldSpec)
    (v : PyVal) (c : Conv) (e : Unit)
    (hp : pget d n = some v) (hc : s.fconv = some c) (hac : applyConv c v = .error e) :
    check_field_step d n s = (d, some (.convError n)) := by
  simp [check_field_step, hp, hc, hac]

/-- One iteration never touches other keys of the payload. -/
theorem check_field_step_pget_ne (d : Payload) (n : String) (s : FieldSpec)
    (k : String) (h : n ≠ k) :
    pget (check_field_step d n s).1 k = pget d k := by
  cases hp : pget d n with
  | none => rw [check_field_step_absent d n s hp]
  | some v =>
    cases hc : s.fconv with
    | none => rw [check_field_step_eq_noconv d n s v hp hc, check_field_post_fst]
    | some c =>
      cases hac : applyConv c v with
      | ok v2 =>
        rw [check_field_step_eq_conv_ok d n s v c v2 hp hc hac, check_field_post_fst,
          pget_pset_ne d n k v2 h]
      | error e => rw [check_field_step_eq_conv_err d n s v c e hp hc hac]

/-- If the type and allowed-value checks pass, the checked value really
satisfies them. -/
theorem check_field_post_ok (d : Payload) (n : String) (s : FieldSpec) (v : PyVal)
    (h : (check_field_post d n s v).2 = Option.none) :
    isinstanceOf v s.ftype = true ∧ (∀ a, s.fvalues = some a → pyMem v a = true) := by
  unfold check_field_post at h
  by_cases hi : isinstanceOf v s.ftype
  · refine ⟨hi, ?_⟩
    intro a ha
    rw [ha] at h
    by_cases hm : pyMem v a
    · exact hm
    · simp [hi, hm] at h
  · simp [hi] at h

/-- If an iteration finishes without raising, the value now stored under
its field satisfies the entry's type and allowed-value constraints. -/
theorem check_field_step_ok_sat (d : Payload) (n : String) (s : FieldSpec)
    (d2 : Payload) (h : check_field_step d n s = (d2, Option.none)) :
    ∀ v', pget d2 n = some v' → isinstanceOf v' s.ftype = true ∧
      (∀ a, s.fvalues = some a → pyMem v' a = true) := by
  intro v' hv'
  cases hp : pget d n with
  | none =>
    rw [check_field_step_absent d n s hp] at h
    have h1 : d = d2 := by simpa using congrArg Prod.fst h
    rw [← h1, hp] at hv'
    exact Option.noConfusion hv'
  | some v =>
    cases hc : s.fconv with
    | none =>
      rw [check_field_step_eq_noconv d n s v hp hc] at h
      have h1 : d = d2 := by simpa [check_field_post_fst] using congrArg Prod.fst h
      have h2 : (check_field_post d n s v).2 = Option.none := by
        simpa using congrArg Prod.snd h
      rw [← h1, hp] at hv'
      have hvv := Option.some.inj hv'
      rw [← hvv]
      exact check_field_post_ok d n s v h2
    | some c =>
      cases hac : applyConv c v with
      | ok v2 =>
        rw [check_field_step_eq_conv_ok d n s v c v2 hp hc hac] at h
        have h1 : pset d n v2 = d2 := by
          simpa [check_field_post_fst] using congrArg Prod.fst h
        have h2 : (check_field_post (pset d n v2) n s v2).2 = Option.none := by
          simpa using congrArg Prod.snd h
        rw [← h1, pget_pset_self] at hv'
        have hvv := Option.some.inj hv'
        rw [← hvv]
        exact check_field_post_ok (pset d n v2) n s v2 h2
      | error e =>
        rw [check_field_step_eq_conv_err d n s v c e hp hc hac] at h
        exact absurd (congrArg Prod.snd h) (by simp)

/-- If a successful iteration ran a conversion, the converted value is
what the payload now stores under the field. -/
theorem check_field_step_ok_conv (d : Payload) (n : String) (s : FieldSpec)
    (d2 : Payload) (h : check_field_step d n s = (d2, Option.none))
    (c : Conv) (hc : s.fconv = some c) (v : PyVal) (hv : pget d n = some v)
    (v' : PyVal) (hcv : applyConv c v = .ok v') : pget d2 n = some v' := by
  rw [check_field_step_eq_conv_ok d n s v c v' hv hc hcv] at h
  have hfst : pset d n v' = d2 := by
    simpa [check_field_post_fst] using congrArg Prod.fst h
  rw [← hfst, pget_pset_self]

/-! ## Lemmas about the `_check_fields` loop -/

theorem check_fields_cons (d : Payload) (n : String) (s : FieldSpec)
    (rest : List (String × FieldSpec)) :
    check_fields d ((n, s) :: rest)
      = match check_field_step d n s with
        | (d2, some e) => (d2, some e)
        | (d2, Option.none) => check_fields d2 rest := rfl

theorem check_fields_cons_ok {d d2 : Payload} {n : String} {s : FieldSpec}
    (rest : List (String × FieldSpec)) (h : check_field_step d n s = (d2, Option.none)) :
    check_fields d ((n, s) :: rest) = check_fields d2 rest := by
  rw [check_fields_cons, h]

theorem check_fields_cons_err {d d2 : Payload} {n : String} {s : FieldSpec} {e : FieldErr}
    (rest : List (String × FieldSpec)) (h : check_field_step d n s = (d2, some e)) :
    check_fields d ((n, s) :: rest) = (d2, some e) := by
  rw [check_fields_cons, h]

/-- The loop never touches keys that are not in the schema. -/
theorem check_fields_pget_not_mem :
    ∀ (cm : List (String × FieldSpec)) (d : Payload) (k : String),
      k ∉ cm.map Prod.fst → pget (check_fields d cm).1 k = pget d k := by
  intro cm
  induction cm with
  | nil => intro d k _; rfl
  | cons p rest ih =>
    intro d k h
    obtain ⟨n, s⟩ := p
    have hn : n ≠ k := fun he => h (by simp [he])
    have hk : k ∉ rest.map Prod.fst := fun hm => h (by simp [hm])
    rcases hstep : check_field_step d n s with ⟨d2, r⟩
    have hpres := check_field_step_pget_ne d n s k hn
    rw [hstep] at hpres
    cases r with
    | none => rw [check_fields_cons_ok rest hstep, ih d2 k hk]; simpa using hpres
    | some e => rw [check_fields_cons_err rest hstep]; simpa using hpres

/-- Splitting the loop: processing `cm1 ++ cm2` processes `cm1` and, if
no error was raised, continues with `cm2` on the updated payload. -/
theorem check_fields_append :
    ∀ (cm1 : List (String × FieldSpec)) (d : Payload) (cm2 : List (String × FieldSpec)),
      check_fields d (cm1 ++ cm2)
        = match check_fields d cm1 with
          | (d1, some e) => (d1, some e)
          | (d1, Option.none) => check_fields d1 cm2 := by
  intro cm1
  induction cm1 with
  | nil => intro d cm2; rfl
  | cons p rest ih =>
    intro d cm2
    obtain ⟨n, s⟩ := p
    rcases hstep : check_field_step d n s with ⟨d2, r⟩
    cases r with
    | none =>
      rw [List.cons_append, check_fields_cons_ok (rest ++ cm2) hstep, ih d2 cm2,
        check_fields_cons_ok rest hstep]
    | some e =>
      rw [List.cons_append, check_fields_cons_err (rest ++ cm2) hstep,
        check_fields_cons_err rest hstep]

/-- Soundness of the validator: when the loop finishes without raising,
every field of the schema still present in the final payload satisfies
its type and allowed-value constraints. -/
theorem check_fields_ok_sound :
    ∀ (cm : List (String × FieldSpec)) (d : Payload),
      (cm.map Prod.fst).Nodup → (check_fields d cm).2 = Option.none →
      ∀ n s, (n, s) ∈ cm → ∀ v', pget (check_fields d cm).1 n = some v' →
        isinstanceOf v' s.ftype = true ∧
          (∀ a, s.fvalues = some a → pyMem v' a = true) := by
  intro cm
  induction cm with
  | nil => intro d _ _ n s hmem; exact absurd hmem (List.not_mem_nil _)
  | cons p rest ih =>
    intro d hnd hok n s hmem v' hv'
    obtain ⟨n0, s0⟩ := p
    have hnd' : (n0 :: rest.map Prod.fst).Nodup := by simpa using hnd
    obtain ⟨hnotin, hndtail⟩ := List.nodup_cons.mp hnd'
    rcases hstep : check_field_step d n0 s0 with ⟨d2, r⟩
    cases r with
    | some e =>
      rw [check_fields_cons_err rest hstep] at hok
      exact absurd hok (by simp)
    | none =>
      rw [check_fields_cons_ok rest hstep] at hok hv'
      rcases List.mem_cons.mp hmem with heq | hmem'
      · injection heq with h1 h2
        subst h1
        subst h2
        rw [check_fields_pget_not_mem rest d2 n hnotin] at hv'
        exact check_field_step_ok_sat d n s d2 hstep v' hv'
      · exact ih d2 hndtail hok n s hmem' v' hv'

/-- When the loop finishes without raising, a field whose schema entry
has a conversion ends up holding the converted value. -/
theorem check_fields_ok_conv_retained :
    ∀ (cm : List (String × FieldSpec)) (d d1 : Payload),
      (cm.map Prod.fst).Nodup → check_fields d cm = (d1, Option.none) →
      ∀ n s, (n, s) ∈ cm → ∀ c, s.fconv = some c → ∀ v, pget d n = some v →
      ∀ v', applyConv c v = .ok v' → pget d1 n = some v' := by
  intro cm
  induction cm with
  | nil => intro d d1 _ _ n s hmem; exact absurd hmem (List.not_mem_nil _)
  | cons p rest ih =>
    intro d d1 hnd h n s hmem c hc v hv v' hcv
    obtain ⟨n0, s0⟩ := p
    have hnd' : (n0 :: rest.map Prod.fst).Nodup := by simpa using hnd
    obtain ⟨hnotin, hndtail⟩ := List.nodup_cons.mp hnd'
    rcases hstep : check_field_step d n0 s0 with ⟨d2, r⟩
    cases r with
    | some e =>
      rw [check_fields_cons_err rest hstep] at h
      exact absurd (congrArg Prod.snd h) (by simp)
    | none =>
      rw [check_fields_cons_ok rest hstep] at h
      rcases List.mem_cons.mp hmem with heq | hmem'
      · injection heq with h1 h2
        subst h1
        subst h2
        have hd2 := check_field_step_ok_conv d n s d2 hstep c hc v hv v' hcv
        have hrest := check_fields_pget_not_mem rest d2 n hnotin
        rw [h] at hrest
        simp only at hrest
        exact hrest.trans hd2
      · have hne : n0 ≠ n := by
          intro he
          subst he
          exact hnotin (List.mem_map_of_mem Prod.fst hmem')
        have hpres := check_field_step_pget_ne d n0 s0 n hne
        rw [hstep] at hpres
        simp only at hpres
        rw [← hpres] at hv
        exact ih d2 d1 hndtail h n s hmem' c hc v hv v' hcv

theorem strList_map_str : ∀ xs : List String, strList (xs.map PyVal.str) = some xs := by
  intro xs
  induction xs with
  | nil => rfl
  | cons x t ih => simp [strList, ih]

/-! ## The claims -/

/-- C3: the claim says a client constructed with timeout override `t`
uses per-call timeout `t` when the call does not override it.  The code
drops the constructor argument (`self.timeout = 10`): a client built with
`timeout=30` stores `10`, and a request without a per-call override runs
with timeout `10`, not `30`; a per-call override and the default
construction behave as documented. -/
theorem constructor_timeout_is_dropped :
    (StatusCake.init "key" "user" 30).timeout = 10
  ∧ (StatusCake.request (StatusCake.init "key" "user" 30) Option.none true true JVal.null).timeout
      = 10
  ∧ decide ((StatusCake.request (StatusCake.init "key" "user" 30) Option.none true true
        JVal.null).timeout = 30) = false
  ∧ (∀ k u t, (StatusCake.request (StatusCake.init k u t) Option.none true true JVal.null).timeout
      = 10)
  ∧ (∀ k u t o, (StatusCake.request (StatusCake.init k u t) (some o) true true JVal.null).timeout
      = o) :=
  ⟨rfl, rfl, by decide, fun _ _ _ => rfl, fun _ _ _ _ => rfl⟩

/-- C6: the claim says the allowed-value `FieldError` message names the
field, the offending value and the allowed set.  Line 142 interpolates
`field_type` into the `value %s` slot: on payload `{'DesktopAlert': 2}`
the raised error carries the expected type, its rendered message shows
`<class 'int'>` where the value `2` should be, and the error raised for
value `7` is identical to the one raised for value `2`. -/
theorem allowed_value_message_names_type :
    check_fields [("DesktopAlert", PyVal.int 2)] CONTACT_GROUP_FIELDS
      = ([("DesktopAlert", PyVal.int 2)],
         some (FieldErr.valueError "DesktopAlert" FieldType.intType (AllowedVals.tupleI [0, 1])))
  ∧ fieldErrMessage
        (FieldErr.valueError "DesktopAlert" FieldType.intType (AllowedVals.tupleI [0, 1]))
      = "Field DesktopAlert value <class 'int'> does not match one of: (0, 1)"
  ∧ (check_fields [("DesktopAlert", PyVal.int 7)] CONTACT_GROUP_FIELDS).2
      = (check_fields [("DesktopAlert", PyVal.int 2)] CONTACT_GROUP_FIELDS).2 :=
  ⟨rfl, rfl, rfl⟩

/-- C7: the claim says the retrying adapter's mount prefix matches the
origin of the dispatched endpoint URLs.  It does not: the adapter is
mounted on `https://www.statuscake.com` while every dispatch URL lives
under `https://app.statuscake.com`, so no dispatched request URL starts
with the mount prefix and the `max_retries=5` adapter never handles any
of the client's calls. -/
theorem retry_adapter_mount_never_matches :
    dispatchUrls.all (fun u => !(SESSION_MOUNT_URL.data.isPrefixOf u.data)) = true
  ∧ dispatchUrls.all (fun u => ("https://app.statuscake.com".data).isPrefixOf u.data) = true
  ∧ (SESSION_MOUNT_URL == "https://app.statuscake.com") = false :=
  ⟨by decide, by decide, by decide⟩

/-- C8: `to_comma_list` leaves every string unchanged (so it is the
identity, hence idempotent, on already-joined strings) and joins a list
of strings with commas; in particular `"a,b"` is unchanged and
`["a","b"]` becomes `"a,b"`. -/
theorem to_comma_list_join_and_identity :
    (∀ s : String, to_comma_list (PyVal.str s) = .ok (PyVal.str s))
  ∧ (∀ xs : List String, to_comma_list (PyVal.list (xs.map PyVal.str))
      = .ok (PyVal.str (String.intercalate "," xs)))
  ∧ to_comma_list (PyVal.str "a,b") = .ok (PyVal.str "a,b")
  ∧ to_comma_list (PyVal.list [PyVal.str "a", PyVal.str "b"]) = .ok (PyVal.str "a,b") := by
  refine ⟨fun s => rfl, fun xs => ?_, rfl, rfl⟩
  simp [to_comma_list, strList_map_str]

set_option maxHeartbeats 2000000 in
/-- C9: `insert_ssl` default-fills the key `alert_expiry` while the SSL
schema's boolean entry is spelled `alert_expiray`: the schema has no
`alert_expiry` entry, so whatever value sits under `alert_expiry`
(defaulted or caller-supplied, of any type) is dispatched unvalidated,
while the schema entry `alert_expiray` is checked only when the caller
supplies that exact key, which `insert_ssl` never default-fills. -/
theorem ssl_alert_expiry_key_mismatch :
    (SSL_FIELDS.map Prod.fst).contains "alert_expiry" = false
  ∧ (SSL_FIELDS.map Prod.fst).contains "alert_expiray" = true
  ∧ (∀ v, insert_ssl [("domain", PyVal.str "d"), ("contact_groups", PyVal.str "g"),
        ("alert_expiry", v)]
      = OpResult.dispatched URL_UPDATE_SSL
          [("domain", PyVal.str "d"), ("contact_groups", PyVal.str "g"),
           ("alert_expiry", v), ("checkrate", PyVal.int 3600),
           ("alert_at", PyVal.str "1,7,30"), ("alert_reminder", PyVal.bool true),
           ("alert_broken", PyVal.bool true)])
  ∧ insert_ssl [("domain", PyVal.str "d"), ("contact_groups", PyVal.str "g")]
      = OpResult.dispatched URL_UPDATE_SSL
          [("domain", PyVal.str "d"), ("contact_groups", PyVal.str "g"),
           ("checkrate", PyVal.int 3600), ("alert_at", PyVal.str "1,7,30"),
           ("alert_expiry", PyVal.bool true), ("alert_reminder", PyVal.bool true),
           ("alert_broken", PyVal.bool true)]
  ∧ insert_ssl [("domain", PyVal.str "d"), ("contact_groups", PyVal.str "g"),
        ("alert_expiray", PyVal.int 5)]
      = OpResult.raised (.fieldErr (.typeError "alert_expiray" FieldType.boolType)) :=
  ⟨by decide, by decide, fun v => rfl, rfl, rfl⟩

/-- C4: a first location request fetches over the network and caches the
result with expiry `t1 + 900`; a second request at any `t2 < t1 + 900`
returns the cached value without a network call and leaves the cache
unchanged; a request at any `t3` past the expiry fetches again, stores
the new result with expiry `t3 + 900`, and returns it. -/
theorem location_cache_behavior (t1 t2 t3 : Int) (v1 v2 v3 : JVal)
    (h2 : t2 < t1 + 900) (h3 : t1 + 900 < t3) :
    (get_node_locations Option.none t1 v1).network_call = true
  ∧ (get_node_locations Option.none t1 v1).result = v1
  ∧ (get_node_locations Option.none t1 v1).state = some (v1, t1 + 900)
  ∧ (get_node_locations (some (v1, t1 + 900)) t2 v2).result = v1
  ∧ (get_node_locations (some (v1, t1 + 900)) t2 v2).network_call = false
  ∧ (get_node_locations (some (v1, t1 + 900)) t2 v2).state = some (v1, t1 + 900)
  ∧ (get_node_locations (some (v1, t1 + 900)) t3 v3).network_call = true
  ∧ (get_node_locations (some (v1, t1 + 900)) t3 v3).result = v3
  ∧ (get_node_locations (some (v1, t1 + 900)) t3 v3).state = some (v3, t3 + 900) := by
  have h3' : ¬ (t3 < t1 + 900) := by omega
  simp [get_node_locations, h2, h3']

/-- Witness for C4 at `t1 = 0`, `t2 = 100`, `t3 = 1000`. -/
theorem location_cache_behavior_witness :
    (get_node_locations Option.none 0 (JVal.str "a")).network_call = true
  ∧ (get_node_locations Option.none 0 (JVal.str "a")).result = JVal.str "a"
  ∧ (get_node_locations Option.none 0 (JVal.str "a")).state = some (JVal.str "a", 0 + 900)
  ∧ (get_node_locations (some (JVal.str "a", 0 + 900)) 100 (JVal.str "b")).result = JVal.str "a"
  ∧ (get_node_locations (some (JVal.str "a", 0 + 900)) 100 (JVal.str "b")).network_call = false
  ∧ (get_node_locations (some (JVal.str "a", 0 + 900)) 100 (JVal.str "b")).state
      = some (JVal.str "a", 0 + 900)
  ∧ (get_node_locations (some (JVal.str "a", 0 + 900)) 1000 (JVal.str "c")).network_call = true
  ∧ (get_node_locations (some (JVal.str "a", 0 + 900)) 1000 (JVal.str "c")).result = JVal.str "c"
  ∧ (get_node_locations (some (JVal.str "a", 0 + 900)) 1000 (JVal.str "c")).state
      = some (JVal.str "c", 1000 + 900) :=
  location_cache_behavior 0 100 1000 (JVal.str "a") (JVal.str "b") (JVal.str "c")
    (by decide) (by decide)

/-- C5: each write operation with a dict payload missing one of its
declared required fields raises `StatusCakeFieldMissingError` naming the
first missing required field, and performs no network call. -/
theorem required_fields_raise_before_dispatch (d : Payload) :
    (hasKey d "GroupName" = false →
       insert_contact_group d = .raised (.fieldMissing "GroupName missing")
       ∧ networkCalls (insert_contact_group d) = 0)
  ∧ (hasKey d "ContactID" = false →
       update_contact_group d = .raised (.fieldMissing "ContactID missing")
       ∧ networkCalls (update_contact_group d) = 0)
  ∧ (hasKey d "domain" = false →
       insert_ssl d = .raised (.fieldMissing "domain missing")
       ∧ networkCalls (insert_ssl d) = 0)
  ∧ (hasKey d "domain" = true → hasKey d "contact_groups" = false →
       insert_ssl d = .raised (.fieldMissing "contact_groups missing")
       ∧ networkCalls (insert_ssl d) = 0)
  ∧ (hasKey d "id" = false →
       update_ssl d = .raised (.fieldMissing "id missing")
       ∧ networkCalls (update_ssl d) = 0)
  ∧ (hasKey d "WebsiteName" = false →
       insert_test d = .raised (.fieldMissing "WebsiteName missing")
       ∧ networkCalls (insert_test d) = 0)
  ∧ (hasKey d "WebsiteName" = true → hasKey d "WebsiteURL" = false →
       insert_test d = .raised (.fieldMissing "WebsiteURL missing")
       ∧ networkCalls (insert_test d) = 0)
  ∧ (hasKey d "WebsiteName" = true → hasKey d "WebsiteURL" = true →
     hasKey d "TestType" = false →
       insert_test d = .raised (.fieldMissing "TestType missing")
       ∧ networkCalls (insert_test d) = 0)
  ∧ (hasKey d "TestID" = false →
       update_test d = .raised (.fieldMissing "TestID missing")
       ∧ networkCalls (update_test d) = 0)
  ∧ (hasKey d "TestID" = true → hasKey d "CheckRate" = false →
       update_test d = .raised (.fieldMissing "CheckRate missing")
       ∧ networkCalls (update_test d) = 0) := by
  refine ⟨?_, ?_, ?_, ?_, ?_, ?_, ?_, ?_, ?_, ?_⟩
  · intro h
    simp [insert_contact_group, h, networkCalls]
  · intro h
    simp [update_contact_group, h, networkCalls]
  · intro h
    simp [insert_ssl, h, networkCalls]
  · intro h1 h2
    by_cases hcr : hasKey d "checkrate"
    · simp [insert_ssl, h1, h2, hcr, networkCalls]
    · have hcr' : hasKey d "checkrate" = false := by simpa using hcr
      have hset := hasKey_pset_ne d "checkrate" "contact_groups" (PyVal.int 3600) (by decide)
      simp [insert_ssl, h1, h2, hcr', hset, networkCalls]
  · intro h
    simp [update_ssl, h, networkCalls]
  · intro h
    simp [insert_test, h, networkCalls]
  · intro h1 h2
    simp [insert_test, h1, h2, networkCalls]
  · intro h1 h2 h3
    simp [insert_test, h1, h2, h3, networkCalls]
  · intro h
    simp [update_test, h, networkCalls]
  · intro h1 h2
    simp [update_test, h1, h2, networkCalls]

/-- Witness for C5: the empty payload is missing `GroupName`, and a
payload with only `WebsiteName` is missing `WebsiteURL` first. -/
theorem required_fields_raise_before_dispatch_witness :
    (insert_contact_group [] = .raised (.fieldMissing "GroupName missing")
      ∧ networkCalls (insert_contact_group []) = 0)
  ∧ (insert_test [("WebsiteName", PyVal.str "x")]
        = .raised (.fieldMissing "WebsiteURL missing")
      ∧ networkCalls (insert_test [("WebsiteName", PyVal.str "x")]) = 0) :=
  ⟨(required_fields_raise_before_dispatch []).1 rfl,
   (required_fields_raise_before_dispatch [("WebsiteName", PyVal.str "x")]).2.2.2.2.2.2.1
     rfl rfl⟩

/-- C2: on any schema with distinct field names, the validator either
raises a `StatusCakeFieldError` or terminates normally with every field
present in both the payload and the schema holding a value that satisfies
the schema's expected type and, when given, its allowed-value set. -/
theorem validator_soundness (data : Payload) (check_map : List (String × FieldSpec))
    (hnd : (check_map.map Prod.fst).Nodup)
    (hok : (check_fields data check_map).2 = Option.none) :
    ∀ n s, (n, s) ∈ check_map → ∀ v, pget (check_fields data check_map).1 n = some v →
      isinstanceOf v s.ftype = true ∧ (∀ a, s.fvalues = some a → pyMem v a = true) :=
  check_fields_ok_sound check_map data hnd hok

/-- Witness for C2 on the contact-group schema: after successful
validation of `{'GroupName': 'g', 'DesktopAlert': True}`, the
`DesktopAlert` value satisfies the `int` type and the `(0, 1)` set. -/
theorem validator_soundness_witness :
    isinstanceOf (PyVal.bool true) FieldType.intType = true
  ∧ (∀ a, (some (AllowedVals.tupleI [0, 1]) : Option AllowedVals) = some a →
      pyMem (PyVal.bool true) a = true) :=
  validator_soundness [("GroupName", PyVal.str "g"), ("DesktopAlert", PyVal.bool true)]
    CONTACT_GROUP_FIELDS (by decide) rfl "DesktopAlert"
    ⟨FieldType.intType, some (AllowedVals.tupleI [0, 1]), Option.none⟩ (by decide)
    (PyVal.bool true) rfl

/-- C10: validation is not atomic with respect to the caller's payload.
Split the schema as `pre ++ rest`; if `pre` is processed without error
and the loop then raises on `rest`, the raised error is the outcome of
the whole run and every `pre` field with a conversion still holds its
converted value in the payload as left behind by the exception. -/
theorem validator_not_atomic (pre rest : List (String × FieldSpec)) (data d1 : Payload)
    (hnd : ((pre ++ rest).map Prod.fst).Nodup)
    (hpre : check_fields data pre = (d1, Option.none))
    (e : FieldErr) (herr : (check_fields d1 rest).2 = some e)
    (n : String) (s : FieldSpec) (hmem : (n, s) ∈ pre)
    (c : Conv) (hc : s.fconv = some c)
    (v : PyVal) (hv : pget data n = some v)
    (v' : PyVal) (hcv : applyConv c v = .ok v') :
    (check_fields data (pre ++ rest)).2 = some e
    ∧ pget (check_fields data (pre ++ rest)).1 n = some v' := by
  have happ : check_fields data (pre ++ rest) = check_fields d1 rest := by
    rw [check_fields_append pre data rest, hpre]
  rw [List.map_append] at hnd
  have hnd_pre : (pre.map Prod.fst).Nodup := hnd.of_append_left
  have hdisj := List.disjoint_of_nodup_append hnd
  have hninpre : n ∈ pre.map Prod.fst := List.mem_map_of_mem Prod.fst hmem
  have hnot : n ∉ rest.map Prod.fst := fun hm => hdisj hninpre hm
  constructor
  · rw [happ]
    exact herr
  · rw [happ, check_fields_pget_not_mem rest d1 n hnot]
    exact check_fields_ok_conv_retained pre data d1 hnd_pre hpre n s hmem c hc v hv v' hcv

/-- Witness for C10: `Email` is converted to `"a,b"`, then the loop
raises a type error on `ContactID`; the comma-joined `Email` survives in
the payload left behind by the exception. -/
theorem validator_not_atomic_witness :
    (check_fields
        [("Email", PyVal.list [PyVal.str "a", PyVal.str "b"]), ("ContactID", PyVal.str "x")]
        ([("Email", ⟨FieldType.strType, Option.none, some Conv.commaList⟩)]
          ++ [("ContactID", ⟨FieldType.intType, Option.none, Option.none⟩)])).2
      = some (FieldErr.typeError "ContactID" FieldType.intType)
    ∧ pget (check_fields
        [("Email", PyVal.list [PyVal.str "a", PyVal.str "b"]), ("ContactID", PyVal.str "x")]
        ([("Email", ⟨FieldType.strType, Option.none, some Conv.commaList⟩)]
          ++ [("ContactID", ⟨FieldType.intType, Option.none, Option.none⟩)])).1 "Email"
      = some (PyVal.str "a,b") :=
  validator_not_atomic
    [("Email", ⟨FieldType.strType, Option.none, some Conv.commaList⟩)]
    [("ContactID", ⟨FieldType.intType, Option.none, Option.none⟩)]
    [("Email", PyVal.list [PyVal.str "a", PyVal.str "b"]), ("ContactID", PyVal.str "x")]
    [("Email", PyVal.str "a,b"), ("ContactID", PyVal.str "x")]
    (by decide) rfl
    (FieldErr.typeError "ContactID" FieldType.intType) rfl
    "Email" ⟨FieldType.strType, Option.none, some Conv.commaList⟩ (by decide)
    Conv.commaList rfl
    (PyVal.list [PyVal.str "a", PyVal.str "b"]) rfl
    (PyVal.str "a,b") rfl

/-- C1: with `check_errors` on, a parsed object body whose `Success`
field is exactly `false` or whose `Error` field is non-null raises
`StatusCakeAuthError` when `ErrNo` is `0`, `StatusCakeNotLinkedError`
when `ErrNo` is `1`, and `StatusCakeResponseError` for any other `ErrNo`
(the absent case defaults to `-1`); the message is the `Error` field if
truthy, else the `Message` field if truthy, else the documented default.
The three example bodies behave as the claim states. -/
theorem dispatcher_error_classification (fs : List (String × JVal))
    (hfail : isFalseLit (jGetD fs "Success" (JVal.bool true)) = true ∨ errorNotNone fs = true) :
    ((jGetD fs "ErrNo" (JVal.int (-1)) = JVal.int 0 →
        request_check_errors (JVal.obj fs)
          = some (SCRaise.StatusCakeAuthError
              (pyOr (error_message_of fs) "Authentication Failed")))
     ∧ (jGetD fs "ErrNo" (JVal.int (-1)) = JVal.int 1 →
        request_check_errors (JVal.obj fs)
          = some (SCRaise.StatusCakeNotLinkedError
              (pyOr (error_message_of fs) "Authentication Failed")))
     ∧ (jvalEqInt (jGetD fs "ErrNo" (JVal.int (-1))) 0 = false →
        jvalEqInt (jGetD fs "ErrNo" (JVal.int (-1))) 1 = false →
        request_check_errors (JVal.obj fs)
          = some (SCRaise.StatusCakeResponseError
              (pyOr (error_message_of fs) "API Call Failed"))))
  ∧ (truthy (jGetD fs "Error" JVal.null) = true →
       error_message_of fs = jGetD fs "Error" JVal.null)
  ∧ (truthy (jGetD fs "Error" JVal.null) = false →
       error_message_of fs = jGetD fs "Message" JVal.null)
  ∧ (truthy (jGetD fs "Error" JVal.null) = false →
     truthy (jGetD fs "Message" JVal.null) = false →
       pyOr (error_message_of fs) "Authentication Failed" = JVal.str "Authentication Failed"
       ∧ pyOr (error_message_of fs) "API Call Failed" = JVal.str "API Call Failed")
  ∧ request_check_errors (JVal.obj [("Success", JVal.bool false), ("ErrNo", JVal.int 0),
        ("Error", JVal.str "bad key")])
      = some (SCRaise.StatusCakeAuthError (JVal.str "bad key"))
  ∧ request_check_errors (JVal.obj [("Success", JVal.bool false), ("ErrNo", JVal.int 1)])
      = some (SCRaise.StatusCakeNotLinkedError (JVal.str "Authentication Failed"))
  ∧ request_check_errors (JVal.obj [("Success", JVal.bool false), ("ErrNo", JVal.int 7),
        ("Message", JVal.str "oops")])
      = some (SCRaise.StatusCakeResponseError (JVal.str "oops")) := by
  have hcond : (isFalseLit (jGetD fs "Success" (JVal.bool true)) || errorNotNone fs) = true := by
    rcases hfail with h | h <;> simp [h]
  refine ⟨⟨?_, ?_, ?_⟩, ?_, ?_, ?_, rfl, rfl, rfl⟩
  · intro h0
    simp [request_check_errors, hcond, h0, jvalEqInt]
  · intro h1
    simp [request_check_errors, hcond, h1, jvalEqInt]
  · intro h0 h1
    simp [request_check_errors, hcond, h0, h1]
  · intro hE
    simp [error_message_of, hE]
  · intro hE
    simp [error_message_of, hE]
  · intro hE hM
    have h2 : error_message_of fs = jGetD fs "Message" JVal.null := by
      simp [error_message_of, hE]
    rw [h2]
    constructor <;> simp [pyOr, hM]

/-- Witness for C1 on the first example body. -/
theorem dispatcher_error_classification_witness :
    request_check_errors (JVal.obj [("Success", JVal.bool false), ("ErrNo", JVal.int 0),
        ("Error", JVal.str "bad key")])
      = some (SCRaise.StatusCakeAuthError (JVal.str "bad key")) :=
  (dispatcher_error_classification
      [("Success", JVal.bool false), ("ErrNo", JVal.int 0), ("Error", JVal.str "bad key")]
      (Or.inl rfl)).1.1 rfl

end StatusCakeModel
